import Mathlib

/-!
# Verification of the acorn-typescript disambiguating parser core

A shallow embedding, in Lean 4, of the state-snapshot engine, the
context-sensitive tokenizer dispatch, the speculative `tryParse`
combinator, the ambient-initializer check, the scope/binding extension,
the modifier-list enforcement, the tuple-element validation, the postfix
non-null-assertion branch, the `finishNode` guard and the diagnostic
routing of `src/src/index.ts`, together with theorems settling the
frozen claims about those components.

JavaScript aliasing of the `this.context` array matters for the snapshot
claims, so parser states hold the context stack as a reference into an
explicit array store (`CtxHeap`); every other captured field is a plain
value, exactly as in the source.
-/

namespace AcornTs

/-- acorn `Position`: line, column, and the absolute index
(`endLoc.index` is read by `resetEndLocation`, src 398-405). -/
structure Loc where
  line : Nat
  column : Nat
  index : Nat
deriving DecidableEq, Repr

/-- A lexical-context tag (an entry of `this.context`). -/
abbrev Ctx := Nat

/-- The store of context arrays.  `this.context` in the source is a
JavaScript array held by reference; a parser state refers to its context
array by index into this store, so that reference sharing between a live
state and a captured snapshot is represented faithfully. -/
abbrev CtxHeap := List (List Ctx)

/-- The mutable cursor fields captured by `getCurLookaheadState` /
`cloneCurLookaheadState` and overwritten by `setLookaheadState`
(src 569-628).  `context` is the reference into the `CtxHeap`;
`curPosition` is the bound-method reference the source copies around
unchanged, modelled as an opaque id; `endPos` renders the source field
`end` (a Lean keyword). -/
structure ParserState where
  pos : Nat
  value : Option String
  type : Nat
  start : Nat
  endPos : Nat
  context : Nat
  startLoc : Loc
  lastTokEndLoc : Loc
  endLoc : Loc
  lastTokEnd : Nat
  lastTokStart : Nat
  lastTokStartLoc : Loc
  curLine : Nat
  lineStart : Nat
  curPosition : Nat
  containsEsc : Bool
deriving DecidableEq, Repr

/-- `getCurLookaheadState` (src 569-588): copies every captured field by
value; the `context` field is the array reference itself (no `slice`),
so the snapshot shares the live context array. -/
def getCurLookaheadState (s : ParserState) : ParserState :=
  { endLoc := s.endLoc
    lastTokEnd := s.lastTokEnd
    lastTokStart := s.lastTokStart
    lastTokStartLoc := s.lastTokStartLoc
    pos := s.pos
    value := s.value
    type := s.type
    start := s.start
    endPos := s.endPos
    context := s.context
    startLoc := s.startLoc
    lastTokEndLoc := s.lastTokEndLoc
    curLine := s.curLine
    lineStart := s.lineStart
    curPosition := s.curPosition
    containsEsc := s.containsEsc }

/-- `cloneCurLookaheadState` (src 590-609): identical to
`getCurLookaheadState` except that `context` is `this.context.slice()`,
i.e. a freshly allocated copy of the live context array.  Returns the
snapshot together with the extended store. -/
def cloneCurLookaheadState (s : ParserState) (h : CtxHeap) :
    ParserState × CtxHeap :=
  ({ pos := s.pos
     value := s.value
     type := s.type
     start := s.start
     endPos := s.endPos
     context := h.length
     startLoc := s.startLoc
     lastTokEndLoc := s.lastTokEndLoc
     endLoc := s.endLoc
     lastTokEnd := s.lastTokEnd
     lastTokStart := s.lastTokStart
     lastTokStartLoc := s.lastTokStartLoc
     curLine := s.curLine
     lineStart := s.lineStart
     curPosition := s.curPosition
     containsEsc := s.containsEsc },
   h ++ [h.getD s.context []])

/-- `setLookaheadState` (src 611-628): overwrites every captured field of
the live state with the snapshot's value (including the context-array
reference). -/
def setLookaheadState (_s : ParserState) (st : ParserState) : ParserState :=
  { pos := st.pos
    value := st.value
    endLoc := st.endLoc
    lastTokEnd := st.lastTokEnd
    lastTokStart := st.lastTokStart
    lastTokStartLoc := st.lastTokStartLoc
    type := st.type
    start := st.start
    endPos := st.endPos
    context := st.context
    startLoc := st.startLoc
    lastTokEndLoc := st.lastTokEndLoc
    curLine := st.curLine
    lineStart := st.lineStart
    curPosition := st.curPosition
    containsEsc := st.containsEsc }

/-- The context stack a state observes: the contents of the array its
`context` field references. -/
def observedContext (h : CtxHeap) (s : ParserState) : List Ctx :=
  h.getD s.context []

/-- One primitive state mutation performed while tokens are advanced:
`finishToken` (src 710 ff.) assigns the scalar cursor fields;
`updateContext` pushes onto / shrinks the live context array **in
place** (src 5298-5314, `this.context.push(...)` and
`this.context.length -= 2`); `createLookaheadState` (src 564-567)
replaces `this.context` with a freshly allocated one-element array. -/
inductive TokStep where
  | scalars (pos : Nat) (value : Option String) (type : Nat)
      (start endPos : Nat) (startLoc lastTokEndLoc endLoc : Loc)
      (lastTokEnd lastTokStart : Nat) (lastTokStartLoc : Loc)
      (curLine lineStart : Nat) (containsEsc : Bool)
  | pushCtx (c : Ctx)
  | popCtx
  | replaceCtx (c : Ctx)
deriving Repr

/-- Apply one token-advance mutation to a live state and the store. -/
def applyStep (sh : ParserState × CtxHeap) : TokStep → ParserState × CtxHeap
  | .scalars pos value type start endPos startLoc lastTokEndLoc endLoc
      lastTokEnd lastTokStart lastTokStartLoc curLine lineStart containsEsc =>
    ({ sh.1 with
        pos := pos, value := value, type := type, start := start,
        endPos := endPos, startLoc := startLoc,
        lastTokEndLoc := lastTokEndLoc, endLoc := endLoc,
        lastTokEnd := lastTokEnd, lastTokStart := lastTokStart,
        lastTokStartLoc := lastTokStartLoc, curLine := curLine,
        lineStart := lineStart, containsEsc := containsEsc }, sh.2)
  | .pushCtx c =>
    (sh.1, sh.2.set sh.1.context (observedContext sh.2 sh.1 ++ [c]))
  | .popCtx =>
    (sh.1, sh.2.set sh.1.context (observedContext sh.2 sh.1).dropLast)
  | .replaceCtx c =>
    ({ sh.1 with context := sh.2.length }, sh.2 ++ [[c]])

/-- Apply a sequence of token-advance mutations. -/
def applySteps (sh : ParserState × CtxHeap) (steps : List TokStep) :
    ParserState × CtxHeap :=
  steps.foldl applyStep sh

theorem getCurLookaheadState_eq (s : ParserState) :
    getCurLookaheadState s = s := rfl

theorem setLookaheadState_eq (s st : ParserState) :
    setLookaheadState s st = st := rfl

/-- A cell other than the one a step writes through survives the step:
its index stays valid, its contents are unchanged, and the live state
never comes to reference it. -/
theorem applyStep_preserves (s : ParserState) (h : CtxHeap) (st : TokStep)
    (n : Nat) (hne : s.context ≠ n) (hlt : n < h.length) :
    (applyStep (s, h) st).1.context ≠ n ∧
      n < (applyStep (s, h) st).2.length ∧
      (applyStep (s, h) st).2.getD n [] = h.getD n [] := by
  cases st with
  | scalars pos value type start endPos startLoc lastTokEndLoc endLoc
      lastTokEnd lastTokStart lastTokStartLoc curLine lineStart containsEsc =>
    exact ⟨hne, hlt, rfl⟩
  | pushCtx c =>
    refine ⟨hne, by simpa [applyStep] using hlt, ?_⟩
    simp only [applyStep, List.getD, List.get?_eq_getElem?]
    rw [List.getElem?_set_ne hne]
  | popCtx =>
    refine ⟨hne, by simpa [applyStep] using hlt, ?_⟩
    simp only [applyStep, List.getD, List.get?_eq_getElem?]
    rw [List.getElem?_set_ne hne]
  | replaceCtx c =>
    refine ⟨?_, ?_, ?_⟩
    · simp only [applyStep]
      omega
    · simp only [applyStep, List.length_append]
      omega
    · simp only [applyStep, List.getD, List.get?_eq_getElem?]
      rw [List.getElem?_append_left hlt]

/-- `applyStep_preserves`, iterated over a step list. -/
theorem applySteps_preserves (steps : List TokStep)
    (s : ParserState) (h : CtxHeap) (n : Nat)
    (hne : s.context ≠ n) (hlt : n < h.length) :
    (applySteps (s, h) steps).1.context ≠ n ∧
      n < (applySteps (s, h) steps).2.length ∧
      (applySteps (s, h) steps).2.getD n [] = h.getD n [] := by
  induction steps generalizing s h with
  | nil => exact ⟨hne, hlt, rfl⟩
  | cons st rest ih =>
    have h1 := applyStep_preserves s h st n hne hlt
    have h2 := ih (applyStep (s, h) st).1 (applyStep (s, h) st).2 h1.1 h1.2.1
    rw [applySteps] at *
    simp only [List.foldl_cons]
    exact ⟨h2.1, h2.2.1, h2.2.2.trans h1.2.2⟩

/-- Everything a parser state observes: each captured scalar field by
value, and the *contents* of the context array it references. -/
structure Observation where
  pos : Nat
  value : Option String
  type : Nat
  start : Nat
  endPos : Nat
  startLoc : Loc
  lastTokEndLoc : Loc
  endLoc : Loc
  lastTokEnd : Nat
  lastTokStart : Nat
  lastTokStartLoc : Loc
  curLine : Nat
  lineStart : Nat
  containsEsc : Bool
  context : List Ctx
deriving DecidableEq, Repr

/-- Observe a state against the store. -/
def observe (h : CtxHeap) (s : ParserState) : Observation :=
  { pos := s.pos, value := s.value, type := s.type, start := s.start,
    endPos := s.endPos, startLoc := s.startLoc,
    lastTokEndLoc := s.lastTokEndLoc, endLoc := s.endLoc,
    lastTokEnd := s.lastTokEnd, lastTokStart := s.lastTokStart,
    lastTokStartLoc := s.lastTokStartLoc, curLine := s.curLine,
    lineStart := s.lineStart, containsEsc := s.containsEsc,
    context := observedContext h s }

theorem getD_append_length (h : CtxHeap) (x : List Ctx) :
    (h ++ [x]).getD h.length [] = x := by
  simp [List.getD, List.get?_eq_getElem?, List.getElem?_append_right]

/-- C1 (amended): a snapshot taken with `cloneCurLookaheadState` deep-copies
the context stack, so (i) restoring it immediately is observationally a
no-op and (ii) after any sequence of token-advance mutations — scalar
cursor updates, in-place pushes/pops of the live context array, or
replacement of the live context array — restoring the snapshot
reproduces every captured scalar field and the context-stack contents
observed at capture time.  For `getCurLookaheadState` only the literal
state equality `restore (snapshot ()) = id` holds (first conjunct); its
snapshot shares the live context array (see the counterexample). -/
theorem ts_snapshot_roundtrip (s : ParserState) (h : CtxHeap)
    (steps : List TokStep) (hwf : s.context < h.length) :
    setLookaheadState s (getCurLookaheadState s) = s ∧
      observe (cloneCurLookaheadState s h).2
        (setLookaheadState s (cloneCurLookaheadState s h).1) = observe h s ∧
      observe (applySteps (s, (cloneCurLookaheadState s h).2) steps).2
        (setLookaheadState
          (applySteps (s, (cloneCurLookaheadState s h).2) steps).1
          (cloneCurLookaheadState s h).1) = observe h s := by
  refine ⟨rfl, ?_, ?_⟩
  · simp only [setLookaheadState_eq, observe, cloneCurLookaheadState,
      observedContext, Observation.mk.injEq, true_and, and_true]
    exact getD_append_length h _
  · have hpre := applySteps_preserves steps s
      (h ++ [h.getD s.context []]) h.length
      (by omega) (by simp)
    simp only [setLookaheadState_eq, observe, cloneCurLookaheadState,
      observedContext, Observation.mk.injEq, true_and, and_true]
    have h2 := hpre.2.2
    simp only [cloneCurLookaheadState] at h2
    rw [h2, getD_append_length h _]

/-- Concrete parser state used to instantiate the C1 theorems. -/
def sC1 : ParserState :=
  { pos := 3, value := none, type := 1, start := 2, endPos := 3,
    context := 0, startLoc := ⟨1, 2, 2⟩, lastTokEndLoc := ⟨1, 1, 1⟩,
    endLoc := ⟨1, 3, 3⟩, lastTokEnd := 1, lastTokStart := 0,
    lastTokStartLoc := ⟨1, 0, 0⟩, curLine := 1, lineStart := 0,
    curPosition := 0, containsEsc := false }

/-- Concrete context store: one live context array holding the tag `5`. -/
def hC1 : CtxHeap := [[5]]

/-- C1 witness: the amended round-trip theorem applied at the concrete
state `sC1`, store `hC1`, and a token advance that pushes a context tag
in place. -/
theorem ts_snapshot_roundtrip_witness :
    sC1.context < hC1.length ∧
      observe (applySteps (sC1, (cloneCurLookaheadState sC1 hC1).2)
          [TokStep.pushCtx 9]).2
        (setLookaheadState
          (applySteps (sC1, (cloneCurLookaheadState sC1 hC1).2)
            [TokStep.pushCtx 9]).1
          (cloneCurLookaheadState sC1 hC1).1) = observe hC1 sC1 :=
  ⟨by decide,
   (ts_snapshot_roundtrip sC1 hC1 [TokStep.pushCtx 9] (by decide)).2.2⟩

/-- C1 counterexample: a snapshot taken with `getCurLookaheadState` shares
the live context array, so the in-place push performed by `updateContext`
while advancing a token alters the already-captured snapshot, and
restoring it does not reproduce the context stack observed at capture:
both the snapshot's observed context and the restored state's observed
context differ from the one captured. -/
theorem ts_snapshot_shared_context_counterexample :
    observedContext (applyStep (sC1, hC1) (TokStep.pushCtx 9)).2
        (getCurLookaheadState sC1) ≠ observedContext hC1 sC1 ∧
      observedContext (applyStep (sC1, hC1) (TokStep.pushCtx 9)).2
        (setLookaheadState (applyStep (sC1, hC1) (TokStep.pushCtx 9)).1
          (getCurLookaheadState sC1)) ≠ observedContext hC1 sC1 := by
  decide

/-- How one invocation of the speculative callback `fn` ends.  `fn` may
return a node normally, invoke the provided `abort` callback (which
throws the abort-sentinel object, src 334-337), throw a parse error (a
`SyntaxError`), or throw any other value.  Each case carries the parser
state and context store at the moment of return or throw; nodes and
errors are opaque ids. -/
inductive FnOutcome where
  | normal (node : Nat) (s : ParserState) (h : CtxHeap)
  | abortSig (node : Option Nat) (s : ParserState) (h : CtxHeap)
  | parseErr (err : Nat) (s : ParserState) (h : CtxHeap)
  | otherErr (err : Nat) (s : ParserState) (h : CtxHeap)

/-- The record `tryParse` reports (src 339-366). -/
structure TryParseResult where
  node : Option Nat
  error : Option Nat
  thrown : Bool
  aborted : Bool
  failState : Option ParserState
deriving DecidableEq, Repr

/-- `tryParse` (src 321-370): clones the current lookahead state, runs
`fn`, and on normal return reports success without touching the state;
the catch block captures the fail state, **restores the snapshot
unconditionally**, then reports a thrown `SyntaxError` or an abort, and
rethrows anything else (`Except.error`). -/
def tryParse (s : ParserState) (h : CtxHeap)
    (fn : ParserState → CtxHeap → FnOutcome) :
    Except (Nat × ParserState × CtxHeap)
      (TryParseResult × ParserState × CtxHeap) :=
  let oldState := (cloneCurLookaheadState s h).1
  match fn s (cloneCurLookaheadState s h).2 with
  | .normal node s1 h1 =>
    .ok ({ node := some node, error := none, thrown := false,
           aborted := false, failState := none }, s1, h1)
  | .parseErr e s1 h1 =>
    .ok ({ node := none, error := some e, thrown := true,
           aborted := false,
           failState := some (getCurLookaheadState s1) },
         setLookaheadState s1 oldState, h1)
  | .abortSig node s1 h1 =>
    .ok ({ node := node, error := none, thrown := false,
           aborted := true,
           failState := some (getCurLookaheadState s1) },
         setLookaheadState s1 oldState, h1)
  | .otherErr e s1 h1 =>
    .error (e, setLookaheadState s1 oldState, h1)

/-- C2 (amended): outcome semantics of `tryParse`: (1) a normal return of
`fn` reports success — node set, no error, `thrown = false`,
`aborted = false` — without restoring the state; (2) an abort reports
`aborted = true` with the partial node after restoring the pre-call
snapshot; (3) a thrown parse error is captured — `thrown = true`, error
recorded, never propagated — after restoring the snapshot; (4) any other
thrown value is rethrown to the caller, but only after the pre-call
snapshot has been restored (the catch block restores before
distinguishing error kinds). -/
theorem tryParse_outcomes (s : ParserState) (h : CtxHeap)
    (fn : ParserState → CtxHeap → FnOutcome) :
    (∀ n s1 h1, fn s (cloneCurLookaheadState s h).2 = .normal n s1 h1 →
      tryParse s h fn =
        .ok ({ node := some n, error := none, thrown := false,
               aborted := false, failState := none }, s1, h1)) ∧
    (∀ node s1 h1,
      fn s (cloneCurLookaheadState s h).2 = .abortSig node s1 h1 →
      tryParse s h fn =
        .ok ({ node := node, error := none, thrown := false,
               aborted := true,
               failState := some (getCurLookaheadState s1) },
             setLookaheadState s1 (cloneCurLookaheadState s h).1, h1)) ∧
    (∀ e s1 h1, fn s (cloneCurLookaheadState s h).2 = .parseErr e s1 h1 →
      tryParse s h fn =
        .ok ({ node := none, error := some e, thrown := true,
               aborted := false,
               failState := some (getCurLookaheadState s1) },
             setLookaheadState s1 (cloneCurLookaheadState s h).1, h1)) ∧
    (∀ e s1 h1, fn s (cloneCurLookaheadState s h).2 = .otherErr e s1 h1 →
      tryParse s h fn =
        .error (e, setLookaheadState s1 (cloneCurLookaheadState s h).1,
                h1)) := by
  refine ⟨?_, ?_, ?_, ?_⟩ <;> intro a s1 h1 hfn <;> simp [tryParse, hfn]

/-- C2 witness: `tryParse_outcomes` applied to a concrete callback that
throws a parse error after advancing the position. -/
theorem tryParse_outcomes_witness :
    ((fun (s : ParserState) (h : CtxHeap) =>
        FnOutcome.parseErr 7 { s with pos := 50 } h) sC1
      (cloneCurLookaheadState sC1 hC1).2 =
        FnOutcome.parseErr 7 { sC1 with pos := 50 }
          (cloneCurLookaheadState sC1 hC1).2) ∧
    tryParse sC1 hC1
        (fun s h => FnOutcome.parseErr 7 { s with pos := 50 } h) =
      .ok ({ node := none, error := some 7, thrown := true,
             aborted := false,
             failState := some
               (getCurLookaheadState { sC1 with pos := 50 }) },
           setLookaheadState { sC1 with pos := 50 }
             (cloneCurLookaheadState sC1 hC1).1,
           (cloneCurLookaheadState sC1 hC1).2) :=
  ⟨rfl, (tryParse_outcomes sC1 hC1 _).2.2.1 7 _ _ rfl⟩

/-- C2 counterexample: a callback that throws a non-parse-error value
after moving the cursor to position 99.  `tryParse` does rethrow it, but
the parser state it leaves behind is the restored pre-call snapshot
(position 3, the cloned context reference), not the state at the throw —
refuting "rethrown immediately without restoring the state". -/
theorem tryParse_rethrow_restores_counterexample :
    tryParse sC1 hC1
        (fun s h => FnOutcome.otherErr 5 { s with pos := 99 } h) =
      .error (5, { sC1 with context := 1 }, hC1 ++ [[5]]) ∧
    ({ sC1 with context := 1 } : ParserState).pos ≠ 99 :=
  ⟨rfl, by decide⟩

/-- The token kinds the lexing dispatch can produce.  `relational` is
`tt.relational` finished by `finishOp(tt.relational, size)`; the `jsx*`
kinds are the tag-lexing outcomes; `word` is the base engine's
`readWord`; `atTok` is the decorator token; `prefixOp` is `tt.prefix`
(used by the parser-side claims); `comma` is `tt.comma`;
`baseTok code` stands for whatever the base engine's `getTokenFromCode`
yields for `code`. -/
inductive TokKind where
  | relational (size : Nat)
  | jsxTagStart
  | jsxTagEnd
  | jsxWord
  | jsxString
  | jsxText
  | word
  | atTok
  | prefixOp
  | comma
  | baseTok (code : Nat)
deriving DecidableEq, Repr

/-- The lexical contexts `readToken` inspects: JSX expression context,
JSX opening-tag context, JSX closing-tag context, or anything else. -/
inductive TokCtx where
  | tc_expr
  | tc_oTag
  | tc_cTag
  | otherCtx
deriving DecidableEq, Repr

/-- The tokenizer-mode fields `readToken` / `getTokenFromCode` read:
the `inType` flag, the current (top) lexical context, `exprAllowed`, and
the character after the current one (`this.input.charCodeAt(this.pos + 1)`). -/
structure LexCfg where
  inType : Bool
  curContext : TokCtx
  exprAllowed : Bool
  nextCharCode : Nat
deriving DecidableEq, Repr

/-- Modelled from the spec: the Base Grammar Engine's `getTokenFromCode`
(default lexing, spec section 4.2/6); it knows none of the JSX token
kinds. -/
def baseGetTokenFromCode (code : Nat) : TokKind := .baseTok code

/-- `getTokenFromCodeInType` (src 258-267): in type context `>` and `<`
are finished as one-character `tt.relational` operators; everything else
falls through to the base engine. -/
def getTokenFromCodeInType (code : Nat) : TokKind :=
  if code = 62 then .relational 1
  else if code = 60 then .relational 1
  else baseGetTokenFromCode code

/-- `getTokenFromCode` (src 294-305): dispatches to the type-context
lexer when `inType`, handles `@` (code 64), and otherwise delegates to
the base engine. -/
def getTokenFromCode (cfg : LexCfg) (code : Nat) : TokKind :=
  if cfg.inType then getTokenFromCodeInType code
  else if code = 64 then .atTok
  else baseGetTokenFromCode code

/-- Modelled from the spec: the Base Grammar Engine's `readToken` reads a
word when the character starts an identifier (or is a backslash escape)
and otherwise dispatches through the (dynamically overridden)
`getTokenFromCode`; `isIdStart` is the engine's `isIdentifierStart`
predicate, passed in explicitly. -/
def baseReadToken (isIdStart : Nat → Bool) (cfg : LexCfg) (code : Nat) :
    TokKind :=
  if isIdStart code ∨ code = 92 then .word
  else getTokenFromCode cfg code

/-- `readToken` (src 269-292): only when **not** in type context does it
perform JSX lexing — text in `tc_expr`, tag names / tag-end / attribute
strings in the tag contexts, and tag-start detection for a bare `<`
(code 60) not followed by `!` (code 33) while an expression is allowed;
in type context everything goes to the base engine's `readToken`, whose
`getTokenFromCode` dispatch lands in `getTokenFromCodeInType`. -/
def readToken (isIdStart : Nat → Bool) (cfg : LexCfg) (code : Nat) :
    TokKind :=
  if ¬cfg.inType then
    if cfg.curContext = .tc_expr then .jsxText
    else if (cfg.curContext = .tc_oTag ∨ cfg.curContext = .tc_cTag) ∧
        isIdStart code then .jsxWord
    else if (cfg.curContext = .tc_oTag ∨ cfg.curContext = .tc_cTag) ∧
        code = 62 then .jsxTagEnd
    else if cfg.curContext = .tc_oTag ∧ (code = 34 ∨ code = 39) then
      .jsxString
    else if code = 60 ∧ cfg.exprAllowed ∧ cfg.nextCharCode ≠ 33 then
      .jsxTagStart
    else baseReadToken isIdStart cfg code
  else baseReadToken isIdStart cfg code

/-- C3: in type context (`inType = true`) the characters `<` (60) and `>`
(62) lex as one-character relational punctuators, and no character at
all can lex as a tag-start or tag-end token: tag detection is suppressed
while the type context is active.  The two hypotheses record that the
base engine's `isIdentifierStart` holds of neither `<` nor `>`. -/
theorem ts_type_context_lexing (isIdStart : Nat → Bool) (cfg : LexCfg)
    (hin : cfg.inType = true) (h60 : isIdStart 60 = false)
    (h62 : isIdStart 62 = false) :
    readToken isIdStart cfg 60 = .relational 1 ∧
      readToken isIdStart cfg 62 = .relational 1 ∧
      ∀ code, readToken isIdStart cfg code ≠ .jsxTagStart ∧
        readToken isIdStart cfg code ≠ .jsxTagEnd := by
  refine ⟨?_, ?_, ?_⟩
  · simp [readToken, hin, baseReadToken, h60, getTokenFromCode,
      getTokenFromCodeInType]
  · simp [readToken, hin, baseReadToken, h62, getTokenFromCode,
      getTokenFromCodeInType]
  · intro code
    by_cases h1 : isIdStart code ∨ code = 92
    · simp [readToken, hin, baseReadToken, h1]
    · by_cases h2 : code = 62
      · simp [readToken, hin, baseReadToken, h1, getTokenFromCode,
          getTokenFromCodeInType, h2, h62]
      · by_cases h3 : code = 60 <;>
          simp [readToken, hin, baseReadToken, h1, getTokenFromCode,
            getTokenFromCodeInType, h2, h3, h60, baseGetTokenFromCode]

/-- C3 witness: the type-context lexing theorem applied at a concrete
configuration (type context active inside an expression position) with
the ASCII-letter identifier-start predicate. -/
theorem ts_type_context_lexing_witness :
    ((fun c => decide (97 ≤ c ∧ c ≤ 122)) 60 = false) ∧
      readToken (fun c => decide (97 ≤ c ∧ c ≤ 122))
        { inType := true, curContext := .otherCtx, exprAllowed := true,
          nextCharCode := 97 } 60 = .relational 1 :=
  ⟨by decide,
   (ts_type_context_lexing (fun c => decide (97 ≤ c ∧ c ≤ 122))
     { inType := true, curContext := .otherCtx, exprAllowed := true,
       nextCharCode := 97 } rfl (by decide) (by decide)).1⟩

/-- Expression nodes as far as the ambient-initializer check inspects
them.  Acorn finishes string/number/boolean literals with the single
type tag `Literal` (`parseLiteral`); template literals, member
expressions and identifiers carry their usual tags; `otherExpr` covers
every remaining node kind with its tag. -/
inductive Expr where
  | identifierE (start : Nat)
  | literalE (start : Nat)
  | templateLiteralE (exprCount : Nat) (start : Nat)
  | memberE (obj : Expr) (computed : Bool) (property : Expr) (start : Nat)
  | otherExpr (tag : String) (start : Nat)
deriving DecidableEq, Repr

/-- The `type` tag of the node, as the source compares it. -/
def Expr.typeTag : Expr → String
  | .identifierE _ => "Identifier"
  | .literalE _ => "Literal"
  | .templateLiteralE _ _ => "TemplateLiteral"
  | .memberE _ _ _ _ => "MemberExpression"
  | .otherExpr tag _ => tag

/-- The node's `start` offset. -/
def Expr.startPos : Expr → Nat
  | .identifierE s => s
  | .literalE s => s
  | .templateLiteralE _ s => s
  | .memberE _ _ _ s => s
  | .otherExpr _ s => s

/-- `isUncomputedMemberExpressionChain` (src 104-110). -/
def isUncomputedMemberExpressionChain : Expr → Bool
  | .identifierE _ => true
  | .memberE obj computed _ _ =>
    if computed then false else isUncomputedMemberExpressionChain obj
  | _ => false

/-- Whether a node is a `TemplateLiteral` with no substitution
expressions (`property.expressions.length > 0` test at src 96). -/
def isExpressionlessTemplate : Expr → Bool
  | .templateLiteralE n _ => n = 0
  | _ => false

/-- `isPossiblyLiteralEnum` (src 89-102): a member expression whose
computed property, if any, is an expressionless template literal, over
an uncomputed identifier chain. -/
def isPossiblyLiteralEnum : Expr → Bool
  | .memberE obj computed property _ =>
    if computed ∧ ¬(property.typeTag = "TemplateLiteral" ∧
        isExpressionlessTemplate property) then
      false
    else isUncomputedMemberExpressionChain obj
  | _ => false

/-- One parsed declarator as the ambient loop destructures it: whether
its id carries a type annotation, and its initializer if any. -/
structure Declarator where
  idHasTypeAnnotation : Bool
  init : Option Expr
deriving DecidableEq, Repr

/-- The diagnostics raised by the embedded fragments, each tagged with
the `TypeScriptError` key it is raised with (the error module is not
under src/, so messages stay opaque tags) and the position passed to
`raise`. -/
inductive Diag where
  | initializerNotAllowedInAmbientContext (pos : Nat)
  | constInitiailizerMustBeStringOrNumericLiteralOrLiteralEnumReference
      (pos : Nat)
  | identifierAlreadyDeclared (name : String) (pos : Nat)
  | duplicateAccessibilityModifier (pos : Nat)
  | duplicateModifier (pos : Nat) (modifier : String)
  | invalidModifiersOrder (pos : Nat) (before after : String)
  | incompatibleModifiers (pos : Nat) (mod1 mod2 : String)
  | disallowedModifierTemplate (pos : Nat)
  | optionalTypeBeforeRequired (pos : Nat)
  | mixedLabeledAndUnlabeledElements (pos : Nat)
deriving DecidableEq, Repr

/-- The `(init.type !== TemplateLiteral || init.expressions.length > 0)`
conjunct of the ambient const-initializer test (src 3538): true unless
`init` is a template literal with no substitutions. -/
def templateLiteralCond (init : Expr) : Bool :=
  match init with
  | .templateLiteralE n _ => n > 0
  | _ => true

/-- The ambient (`declare`) initializer validation performed by
`parseVarStatement` after the base declaration is parsed
(src 3518-3546), run over the parsed declarators.  Raises are collected:
every diagnostic goes through `raiseCommonCheck`, which routes these
messages to the base engine's recoverable reporting (modelled from the
spec: `raiseRecoverable` reports and continues, spec section 6). -/
def parseVarStatementAmbientChecks (isAmbientContext : Bool)
    (kind : String) (decls : List Declarator) : List Diag :=
  if ¬isAmbientContext then []
  else
    decls.foldl
      (fun diags d =>
        match d.init with
        | none => diags
        | some init =>
          if kind ≠ "const" ∨ d.idHasTypeAnnotation then
            diags ++ [.initializerNotAllowedInAmbientContext init.startPos]
          else if init.typeTag ≠ "StringLiteral" ∧
              init.typeTag ≠ "BooleanLiteral" ∧
              init.typeTag ≠ "NumericLiteral" ∧
              init.typeTag ≠ "BigIntLiteral" ∧
              templateLiteralCond init ∧
              ¬isPossiblyLiteralEnum init then
            diags ++
              [.constInitiailizerMustBeStringOrNumericLiteralOrLiteralEnumReference
                init.startPos]
          else diags)
      []

/-- C4 (code bug): in an ambient context a `const` declarator without a
type annotation whose initializer is a plain string literal — acorn
finishes it with type tag `Literal`, which matches none of the
Babel-style tags `StringLiteral`/`BooleanLiteral`/`NumericLiteral`/
`BigIntLiteral` the source compares against — IS reported with the
const-initializer error, contradicting the claim, the spec, and the
source's own comment (src 3525-3530) that such initializers are
allowed.  The other two cited behaviours hold: `declare let x = 1` and
`declare const x : number = 1` raise the ambient-initializer error. -/
theorem ts_ambient_const_literal_initializer_bug :
    parseVarStatementAmbientChecks true "const"
        [{ idHasTypeAnnotation := false, init := some (.literalE 16) }] =
      [.constInitiailizerMustBeStringOrNumericLiteralOrLiteralEnumReference
        16] ∧
    parseVarStatementAmbientChecks true "let"
        [{ idHasTypeAnnotation := false, init := some (.literalE 16) }] =
      [.initializerNotAllowedInAmbientContext 16] ∧
    parseVarStatementAmbientChecks true "const"
        [{ idHasTypeAnnotation := true, init := some (.literalE 26) }] =
      [.initializerNotAllowedInAmbientContext 26] ∧
    parseVarStatementAmbientChecks true "const"
        [{ idHasTypeAnnotation := false,
           init := some (.templateLiteralE 0 16) }] = [] := by
  decide

/-- The `acornScope` constant table (src 55-83), verbatim.  Note that
`BIND_KIND_VALUE` and `BIND_KIND_TYPE` are both defined as `0`. -/
def acornScopeTable : List (String × Nat) :=
  [("SCOPE_TOP", 1), ("SCOPE_FUNCTION", 2), ("SCOPE_ASYNC", 4),
   ("SCOPE_GENERATOR", 8), ("SCOPE_ARROW", 16),
   ("SCOPE_SIMPLE_CATCH", 32), ("SCOPE_SUPER", 64),
   ("SCOPE_DIRECT_SUPER", 128), ("SCOPE_CLASS_STATIC_BLOCK", 256),
   ("SCOPE_VAR", 256), ("BIND_NONE", 0), ("BIND_VAR", 1),
   ("BIND_LEXICAL", 2), ("BIND_FUNCTION", 3), ("BIND_SIMPLE_CATCH", 4),
   ("BIND_OUTSIDE", 5), ("BIND_TS_TYPE", 6), ("BIND_TS_INTERFACE", 7),
   ("BIND_TS_NAMESPACE", 8), ("BIND_FLAGS_TS_EXPORT_ONLY", 0b00010000000000),
   ("BIND_FLAGS_TS_IMPORT", 0b01000000000000), ("BIND_KIND_VALUE", 0),
   ("BIND_KIND_TYPE", 0), ("BIND_FLAGS_TS_ENUM", 0b00000100000000),
   ("BIND_FLAGS_TS_CONST_ENUM", 0b00001000000000),
   ("BIND_FLAGS_CLASS", 0b00000010000000)]

def SCOPE_SIMPLE_CATCH : Nat := 32
def BIND_LEXICAL : Nat := 2
def BIND_FUNCTION : Nat := 3
def BIND_TS_TYPE : Nat := 6
def BIND_TS_INTERFACE : Nat := 7
def BIND_TS_NAMESPACE : Nat := 8
def BIND_FLAGS_TS_EXPORT_ONLY : Nat := 0b00010000000000
def BIND_FLAGS_TS_IMPORT : Nat := 0b01000000000000
def BIND_KIND_VALUE : Nat := 0
def BIND_KIND_TYPE : Nat := 0
def BIND_FLAGS_TS_ENUM : Nat := 0b00000100000000
def BIND_FLAGS_TS_CONST_ENUM : Nat := 0b00001000000000
def BIND_FLAGS_CLASS : Nat := 0b00000010000000

/-- A scope record: the base engine's name lists plus the five auxiliary
sets installed by the overridden `enterScope` (src 5338-5355). -/
structure Scope where
  flags : Nat
  varNames : List String
  lexical : List String
  functions : List String
  types : List String
  enums : List String
  constEnums : List String
  classes : List String
  exportOnlyBindings : List String
deriving DecidableEq, Repr

/-- `isRedeclaredInScope` (src 5386-5418).  JavaScript `&` is `Nat.land`;
a flag test is truthy when the result is nonzero.
`treatFunctionsAsVarInScope` belongs to the base engine and is passed in
as a boolean. -/
def isRedeclaredInScope (treatFunctionsAsVar : Bool) (scope : Scope)
    (name : String) (bindingType : Nat) : Bool :=
  if bindingType &&& BIND_KIND_VALUE = 0 then false
  else if bindingType &&& BIND_LEXICAL ≠ 0 then
    name ∈ scope.lexical ∨ name ∈ scope.functions ∨ name ∈ scope.varNames
  else if bindingType &&& BIND_FUNCTION ≠ 0 then
    name ∈ scope.lexical ∨
      (¬treatFunctionsAsVar ∧ name ∈ scope.varNames)
  else
    (name ∈ scope.lexical ∧
      ¬(scope.flags &&& SCOPE_SIMPLE_CATCH ≠ 0 ∧
        scope.lexical.head? = some name)) ∨
    (¬treatFunctionsAsVar ∧ name ∈ scope.functions)

/-- `checkRedeclarationInScope` (src 5420-5429): raises the
already-declared diagnostic when `isRedeclaredInScope` holds. -/
def checkRedeclarationInScope (treatFunctionsAsVar : Bool) (scope : Scope)
    (name : String) (bindingType : Nat) (loc : Nat) : List Diag :=
  if isRedeclaredInScope treatFunctionsAsVar scope name bindingType then
    [.identifierAlreadyDeclared name loc]
  else []

/-- `hasImport` (src 5367-5378). -/
def hasImport (importsStack : List (List String)) (name : String)
    (allowShadow : Bool) : Bool :=
  match importsStack.getLast? with
  | none => false
  | some top =>
    if name ∈ top then true
    else if ¬allowShadow ∧ importsStack.length > 1 then
      importsStack.dropLast.any (fun frame => name ∈ frame)
    else false

/-- Modelled from the spec: the Base Grammar Engine's `declareName`
registers value bindings in the base name lists (spec sections 4.6
and 6: "value bindings are checked by the Base Grammar Engine already");
it never touches the auxiliary TS sets. -/
def baseDeclareName (scope : Scope) (name : String) (bindingType : Nat) :
    Scope :=
  if bindingType = BIND_LEXICAL then
    { scope with lexical := scope.lexical ++ [name] }
  else if bindingType = BIND_FUNCTION then
    { scope with functions := scope.functions ++ [name] }
  else { scope with varNames := scope.varNames ++ [name] }

/-- The overridden `declareName` (src 5431-5460): routes import-only and
export-only bindings, delegates to the base engine, and — only when
`bindingType & BIND_KIND_TYPE` is truthy — checks type redeclaration and
records the name in `scope.types`, then records enum/const-enum/class
flags.  `maybeExportDefined` (src 5380-5384) is omitted from the result
as it only touches the module's `undefinedExports` set, which no claim
reads.  Returns the updated imports stack and scope with the raised
diagnostics. -/
def declareName (treatFunctionsAsVar : Bool)
    (importsStack : List (List String)) (scope : Scope) (name : String)
    (bindingType : Nat) (pos : Nat) :
    List (List String) × Scope × List Diag :=
  if bindingType &&& BIND_FLAGS_TS_IMPORT ≠ 0 then
    let diags :=
      if hasImport importsStack name true then
        [Diag.identifierAlreadyDeclared name pos]
      else []
    (importsStack.dropLast ++
       [(importsStack.getLast?.getD []) ++ [name]], scope, diags)
  else if bindingType &&& BIND_FLAGS_TS_EXPORT_ONLY ≠ 0 then
    (importsStack,
     { scope with exportOnlyBindings := scope.exportOnlyBindings ++ [name] },
     [])
  else
    let scope1 := baseDeclareName scope name bindingType
    let typeDiags :=
      if bindingType &&& BIND_KIND_TYPE ≠ 0 then
        if bindingType &&& BIND_KIND_VALUE = 0 then
          checkRedeclarationInScope treatFunctionsAsVar scope1 name
            bindingType pos
        else []
      else []
    let scope2 :=
      if bindingType &&& BIND_KIND_TYPE ≠ 0 then
        { scope1 with types := scope1.types ++ [name] }
      else scope1
    let scope3 :=
      if bindingType &&& BIND_FLAGS_TS_ENUM ≠ 0 then
        { scope2 with enums := scope2.enums ++ [name] }
      else scope2
    let scope4 :=
      if bindingType &&& BIND_FLAGS_TS_CONST_ENUM ≠ 0 then
        { scope3 with constEnums := scope3.constEnums ++ [name] }
      else scope3
    let scope5 :=
      if bindingType &&& BIND_FLAGS_CLASS ≠ 0 then
        { scope4 with classes := scope4.classes ++ [name] }
      else scope4
    (importsStack, scope5, typeDiags)

/-- C5 (code bug): because `acornScope.BIND_KIND_TYPE` and
`acornScope.BIND_KIND_VALUE` are both `0`, (i) `isRedeclaredInScope`
returns `false` for every binding type — its first guard
`!(bindingType & BIND_KIND_VALUE)` always fires — and (ii) the
type-branch of `declareName` is dead: for every binding type (in
particular the type-kind bindings `BIND_TS_TYPE`, `BIND_TS_INTERFACE`,
`BIND_TS_NAMESPACE` passed by the interface/type-alias/namespace
declarations), no redeclaration check against `scope.types` happens and
the name is never recorded in `scope.types`, even when the same name is
already present there. -/
theorem baseDeclareName_types_eq (scope : Scope) (name : String)
    (bt : Nat) : (baseDeclareName scope name bt).types = scope.types := by
  unfold baseDeclareName
  split
  · rfl
  · split <;> rfl

theorem ts_declareName_type_branch_dead (treatFunctionsAsVar : Bool)
    (importsStack : List (List String)) (scope : Scope) (name : String)
    (bindingType pos : Nat)
    (himp : bindingType &&& BIND_FLAGS_TS_IMPORT = 0)
    (hexp : bindingType &&& BIND_FLAGS_TS_EXPORT_ONLY = 0)
    (henum : bindingType &&& BIND_FLAGS_TS_ENUM = 0)
    (hcenum : bindingType &&& BIND_FLAGS_TS_CONST_ENUM = 0)
    (hclass : bindingType &&& BIND_FLAGS_CLASS = 0) :
    isRedeclaredInScope treatFunctionsAsVar scope name bindingType = false ∧
      (declareName treatFunctionsAsVar importsStack scope name bindingType
        pos).2.2 = [] ∧
      (declareName treatFunctionsAsVar importsStack scope name bindingType
        pos).2.1.types = scope.types := by
  have hkt : bindingType &&& BIND_KIND_TYPE = 0 := Nat.and_zero _
  refine ⟨?_, ?_, ?_⟩
  · simp [isRedeclaredInScope, BIND_KIND_VALUE, Nat.and_zero]
  · simp [declareName, himp, hexp, hkt]
  · simp [declareName, himp, hexp, hkt, henum, hcenum, hclass,
      baseDeclareName_types_eq]

/-- C5 witness: declaring the type name `A` twice over — the scope
already lists `A` in its `types` set — still raises nothing and leaves
`types` unchanged. -/
theorem ts_declareName_type_branch_dead_witness :
    (BIND_TS_TYPE &&& BIND_FLAGS_TS_IMPORT = 0) ∧
    (declareName false [[]]
        { flags := 1, varNames := [], lexical := [], functions := [],
          types := ["A"], enums := [], constEnums := [], classes := [],
          exportOnlyBindings := [] } "A" BIND_TS_TYPE 42).2.2 = [] ∧
    (declareName false [[]]
        { flags := 1, varNames := [], lexical := [], functions := [],
          types := ["A"], enums := [], constEnums := [], classes := [],
          exportOnlyBindings := [] } "A" BIND_TS_TYPE 42).2.1.types =
      ["A"] :=
  ⟨by decide,
   (ts_declareName_type_branch_dead false [[]] _ "A" BIND_TS_TYPE 42
     (by decide) (by decide) (by decide) (by decide) (by decide)).2.1,
   (ts_declareName_type_branch_dead false [[]] _ "A" BIND_TS_TYPE 42
     (by decide) (by decide) (by decide) (by decide) (by decide)).2.2⟩

/-- `tsIsAccessModifier` (src 112-116). -/
def tsIsAccessModifier (modifier : String) : Bool :=
  modifier = "private" ∨ modifier = "public" ∨ modifier = "protected"

/-- `tsIsVarianceAnnotations` (src 47-51). -/
def tsIsVarianceAnnotations (modifier : String) : Bool :=
  modifier = "in" ∨ modifier = "out"

/-- `tsIsClassAccessor` (src 43-45). -/
def tsIsClassAccessor (modifier : String) : Bool :=
  modifier = "accessor"

/-- The `modified` record `tsParseModifiers` fills: the single
`accessibility` slot plus the set of modifier keys already present
(`modified[modifier] = true` / `hasOwnProperty`). -/
structure Modified where
  accessibility : Option String
  keys : List String
deriving DecidableEq, Repr

/-- Truthiness of `modified[name]` for a non-accessibility key. -/
def Modified.hasKey (m : Modified) (name : String) : Bool :=
  name ∈ m.keys

/-- One modifier, as yielded by `tsParseModifier`: its name, its
`startLoc` (captured before it is consumed), and `this.start` after it
is consumed (the position duplicate-modifier diagnostics are raised
at). -/
structure ModToken where
  name : String
  startLoc : Loc
  afterStart : Nat
deriving DecidableEq, Repr

/-- `enforceOrder` (src 2190-2199): raises the ordering diagnostic — at
`loc.column`, the violating modifier's captured start location — when
the just-seen modifier is `before` and `after` has already been set. -/
def enforceOrder (diags : List Diag) (loc : Loc)
    (modifier before after : String) (m : Modified) : List Diag :=
  if modifier = before ∧ m.hasKey after then
    diags ++ [.invalidModifiersOrder loc.column before after]
  else diags

/-- `incompatible` (src 2200-2212): raises the incompatible-modifiers
diagnostic at `loc.column` when the just-seen modifier is one of the
pair and the other is already set. -/
def incompatible (diags : List Diag) (loc : Loc)
    (modifier mod1 mod2 : String) (m : Modified) : List Diag :=
  if (m.hasKey mod1 ∧ modifier = mod2) ∨
      (m.hasKey mod2 ∧ modifier = mod1) then
    diags ++ [.incompatibleModifiers loc.column mod1 mod2]
  else diags

/-- The body of one iteration of the `tsParseModifiers` loop
(src 2214-2275), given the modifier token `tsParseModifier` yielded. -/
def tsParseModifiersStep (disallowedModifiers : List String)
    (st : Modified × List Diag) (tok : ModToken) : Modified × List Diag :=
  let m := st.1
  let diags := st.2
  let (m1, diags1) :=
    if tsIsAccessModifier tok.name then
      if m.accessibility.isSome then
        (m, diags ++ [.duplicateAccessibilityModifier tok.afterStart])
      else
        let d1 := enforceOrder diags tok.startLoc tok.name tok.name
          "override" m
        let d2 := enforceOrder d1 tok.startLoc tok.name tok.name
          "static" m
        let d3 := enforceOrder d2 tok.startLoc tok.name tok.name
          "readonly" m
        let d4 := enforceOrder d3 tok.startLoc tok.name tok.name
          "accessor" m
        ({ m with accessibility := some tok.name }, d4)
    else if tsIsVarianceAnnotations tok.name then
      if m.hasKey tok.name then
        (m, diags ++ [.duplicateModifier tok.afterStart tok.name])
      else
        let d1 := enforceOrder diags tok.startLoc tok.name "in" "out" m
        ({ m with keys := m.keys ++ [tok.name] }, d1)
    else if tsIsClassAccessor tok.name then
      if m.hasKey tok.name then
        (m, diags ++ [.duplicateModifier tok.afterStart tok.name])
      else
        let d1 := incompatible diags tok.startLoc tok.name "accessor"
          "readonly" m
        let d2 := incompatible d1 tok.startLoc tok.name "accessor"
          "static" m
        let d3 := incompatible d2 tok.startLoc tok.name "accessor"
          "override" m
        ({ m with keys := m.keys ++ [tok.name] }, d3)
    else
      if m.hasKey tok.name then
        (m, diags ++ [.duplicateModifier tok.afterStart tok.name])
      else
        let d1 := enforceOrder diags tok.startLoc tok.name "static"
          "readonly" m
        let d2 := enforceOrder d1 tok.startLoc tok.name "static"
          "override" m
        let d3 := enforceOrder d2 tok.startLoc tok.name "override"
          "readonly" m
        let d4 := enforceOrder d3 tok.startLoc tok.name "abstract"
          "override" m
        let d5 := incompatible d4 tok.startLoc tok.name "declare"
          "override" m
        let d6 := incompatible d5 tok.startLoc tok.name "static"
          "abstract" m
        ({ m with keys := m.keys ++ [tok.name] }, d6)
  if tok.name ∈ disallowedModifiers then
    (m1, diags1 ++ [.disallowedModifierTemplate tok.afterStart])
  else (m1, diags1)

/-- `tsParseModifiers` (src 2176-2278) over the sequence of modifier
tokens `tsParseModifier` yields (token recognition and the loop's stop
condition are the stream's business; the enforcement loop is embedded
verbatim). -/
def tsParseModifiers (disallowedModifiers : List String)
    (toks : List ModToken) : Modified × List Diag :=
  toks.foldl (tsParseModifiersStep disallowedModifiers)
    ({ accessibility := none, keys := [] }, [])

/-- C6 (amended): per modifier encountered, `tsParseModifiers` raises —
independently of the order and of whatever else was already seen — a
duplicate-modifier error on any repeated modifier, the
incompatible-modifiers error for `declare`+`override`,
`static`+`abstract`, and `accessor` with any of
`readonly`/`static`/`override`, and the ordering-violation error, tied
to the violating modifier's captured start location, whenever a
modifier that is required to come first (`static` before
`readonly`/`override`, `override` before `readonly`, `abstract` before
`override`, an accessibility keyword before
`override`/`static`/`readonly`) is encountered *after* its required
follower; `public static readonly x` parses cleanly, `static public
readonly x` raises the ordering violation tied to `public`'s location,
and `override abstract` (not `abstract override`, which parses cleanly)
raises the ordering violation tied to `abstract`'s location. -/
theorem ts_modifier_enforcement (m : Modified) (ds : List Diag)
    (tok : ModToken) (dis : List String) :
    (tsIsAccessModifier tok.name = false → m.hasKey tok.name = true →
      Diag.duplicateModifier tok.afterStart tok.name ∈
        (tsParseModifiersStep dis (m, ds) tok).2) ∧
    (tsIsAccessModifier tok.name = true → m.accessibility.isSome = true →
      Diag.duplicateAccessibilityModifier tok.afterStart ∈
        (tsParseModifiersStep dis (m, ds) tok).2) ∧
    (∀ after, tsIsAccessModifier tok.name = true →
      m.accessibility = none →
      (after = "override" ∨ after = "static" ∨ after = "readonly") →
      m.hasKey after = true →
      Diag.invalidModifiersOrder tok.startLoc.column tok.name after ∈
        (tsParseModifiersStep dis (m, ds) tok).2) ∧
    (tok.name = "static" → m.hasKey "static" = false →
      m.hasKey "readonly" = true →
      Diag.invalidModifiersOrder tok.startLoc.column "static" "readonly" ∈
        (tsParseModifiersStep dis (m, ds) tok).2) ∧
    (tok.name = "static" → m.hasKey "static" = false →
      m.hasKey "override" = true →
      Diag.invalidModifiersOrder tok.startLoc.column "static" "override" ∈
        (tsParseModifiersStep dis (m, ds) tok).2) ∧
    (tok.name = "override" → m.hasKey "override" = false →
      m.hasKey "readonly" = true →
      Diag.invalidModifiersOrder tok.startLoc.column "override" "readonly" ∈
        (tsParseModifiersStep dis (m, ds) tok).2) ∧
    (tok.name = "abstract" → m.hasKey "abstract" = false →
      m.hasKey "override" = true →
      Diag.invalidModifiersOrder tok.startLoc.column "abstract" "override" ∈
        (tsParseModifiersStep dis (m, ds) tok).2) ∧
    ((tok.name = "override" ∧ m.hasKey "override" = false ∧
        m.hasKey "declare" = true) ∨
      (tok.name = "declare" ∧ m.hasKey "declare" = false ∧
        m.hasKey "override" = true) →
      Diag.incompatibleModifiers tok.startLoc.column "declare" "override" ∈
        (tsParseModifiersStep dis (m, ds) tok).2) ∧
    ((tok.name = "abstract" ∧ m.hasKey "abstract" = false ∧
        m.hasKey "static" = true) ∨
      (tok.name = "static" ∧ m.hasKey "static" = false ∧
        m.hasKey "abstract" = true) →
      Diag.incompatibleModifiers tok.startLoc.column "static" "abstract" ∈
        (tsParseModifiersStep dis (m, ds) tok).2) ∧
    (∀ other, tok.name = "accessor" → m.hasKey "accessor" = false →
      (other = "readonly" ∨ other = "static" ∨ other = "override") →
      m.hasKey other = true →
      Diag.incompatibleModifiers tok.startLoc.column "accessor" other ∈
        (tsParseModifiersStep dis (m, ds) tok).2) ∧
    tsParseModifiers ["in", "out"]
        [⟨"public", ⟨1, 0, 0⟩, 7⟩, ⟨"static", ⟨1, 7, 7⟩, 14⟩,
         ⟨"readonly", ⟨1, 14, 14⟩, 23⟩] =
      ({ accessibility := some "public", keys := ["static", "readonly"] },
       []) ∧
    tsParseModifiers ["in", "out"]
        [⟨"static", ⟨1, 0, 0⟩, 7⟩, ⟨"public", ⟨1, 7, 7⟩, 14⟩,
         ⟨"readonly", ⟨1, 14, 14⟩, 23⟩] =
      ({ accessibility := some "public", keys := ["static", "readonly"] },
       [.invalidModifiersOrder 7 "public" "static"]) ∧
    tsParseModifiers ["in", "out"]
        [⟨"abstract", ⟨1, 0, 0⟩, 9⟩, ⟨"override", ⟨1, 9, 9⟩, 18⟩] =
      ({ accessibility := none, keys := ["abstract", "override"] }, []) ∧
    tsParseModifiers ["in", "out"]
        [⟨"override", ⟨1, 0, 0⟩, 9⟩, ⟨"abstract", ⟨1, 9, 9⟩, 18⟩] =
      ({ accessibility := none, keys := ["override", "abstract"] },
       [.invalidModifiersOrder 9 "abstract" "override"]) := by
  refine ⟨?_, ?_, ?_, ?_, ?_, ?_, ?_, ?_, ?_, ?_, by decide, by decide,
    by decide, by decide⟩
  · intro hacc hdup
    simp [tsParseModifiersStep, enforceOrder, incompatible,
      tsIsVarianceAnnotations, tsIsClassAccessor, hacc, hdup]
    repeat' split
    all_goals simp_all
  · intro hacc hsome
    simp [tsParseModifiersStep, enforceOrder, incompatible, hacc, hsome]
    repeat' split
    all_goals simp_all
  · intro after hacc hnone hafter hkey
    rcases hafter with h | h | h <;> subst h <;>
      simp [tsParseModifiersStep, enforceOrder, incompatible, hacc,
        hnone, hkey] <;> repeat' split
    all_goals simp_all
  · intro hn hdup hkey
    simp [tsParseModifiersStep, enforceOrder, incompatible,
      tsIsAccessModifier, tsIsVarianceAnnotations, tsIsClassAccessor, hn,
      hdup, hkey]
    repeat' split
    all_goals simp_all
  · intro hn hdup hkey
    simp [tsParseModifiersStep, enforceOrder, incompatible,
      tsIsAccessModifier, tsIsVarianceAnnotations, tsIsClassAccessor, hn,
      hdup, hkey]
    repeat' split
    all_goals simp_all
  · intro hn hdup hkey
    simp [tsParseModifiersStep, enforceOrder, incompatible,
      tsIsAccessModifier, tsIsVarianceAnnotations, tsIsClassAccessor, hn,
      hdup, hkey]
    repeat' split
    all_goals simp_all
  · intro hn hdup hkey
    simp [tsParseModifiersStep, enforceOrder, incompatible,
      tsIsAccessModifier, tsIsVarianceAnnotations, tsIsClassAccessor, hn,
      hdup, hkey]
    repeat' split
    all_goals simp_all
  · intro hcase
    rcases hcase with ⟨hn, hdup, hkey⟩ | ⟨hn, hdup, hkey⟩ <;>
      simp [tsParseModifiersStep, enforceOrder, incompatible,
        tsIsAccessModifier, tsIsVarianceAnnotations, tsIsClassAccessor,
        hn, hdup, hkey] <;> repeat' split
    all_goals simp_all
  · intro hcase
    rcases hcase with ⟨hn, hdup, hkey⟩ | ⟨hn, hdup, hkey⟩ <;>
      simp [tsParseModifiersStep, enforceOrder, incompatible,
        tsIsAccessModifier, tsIsVarianceAnnotations, tsIsClassAccessor,
        hn, hdup, hkey] <;> repeat' split
    all_goals simp_all
  · intro other hn hdup hother hkey
    rcases hother with h | h | h <;> subst h <;>
      simp [tsParseModifiersStep, enforceOrder, incompatible,
        tsIsAccessModifier, tsIsVarianceAnnotations, tsIsClassAccessor,
        hn, hdup, hkey] <;> repeat' split
    all_goals simp_all

/-- C6 witness: the enforcement theorem applied to the `static` token of
the sequence `readonly static`: with `readonly` already recorded, the
ordering violation is raised at `static`'s captured column. -/
theorem ts_modifier_enforcement_witness :
    (("static" : String) = "static") ∧
      Diag.invalidModifiersOrder 9 "static" "readonly" ∈
        (tsParseModifiersStep ["in", "out"]
          ({ accessibility := none, keys := ["readonly"] }, [])
          ⟨"static", ⟨1, 9, 9⟩, 16⟩).2 :=
  ⟨rfl,
   (ts_modifier_enforcement { accessibility := none, keys := ["readonly"] }
     [] ⟨"static", ⟨1, 9, 9⟩, 16⟩ ["in", "out"]).2.2.2.1 rfl (by decide)
     (by decide)⟩

/-- C6 counterexample: the modifier sequence `abstract override` — the
claim's example of an ordering violation tied to `abstract` — produces
no diagnostic at all: the code enforces `abstract` *before* `override`,
so `abstract override` is the compliant order and `override abstract` is
the violating one. -/
theorem ts_modifier_abstract_override_counterexample :
    (tsParseModifiers ["in", "out"]
      [⟨"abstract", ⟨1, 0, 0⟩, 9⟩, ⟨"override", ⟨1, 9, 9⟩, 18⟩]).2 = [] := by
  decide

/-- One parsed tuple element as the validation loop inspects it: its
node type tag, its `optional` flag (meaningful for
`TSNamedTupleMember`), its `start`, and — for a `TSRestType` — the type
tag and `start` of its `typeAnnotation` argument (the loop reassigns
`elementNode` to the argument when checking labels, src 1776-1781). -/
structure TupleElt where
  type : String
  optional : Bool
  start : Nat
  argType : String
  argStart : Nat
deriving DecidableEq, Repr

/-- Whether the element counts as optional for the
required-after-optional check (`seenOptionalElement ||=`, src 1772-1774). -/
def eltOptionalish (e : TupleElt) : Bool :=
  (e.type = "TSNamedTupleMember" ∧ e.optional) ∨ e.type = "TSOptionalType"

/-- Whether the element triggers the required-after-optional raise once
an optional element has been seen (src 1763-1768). -/
def eltRequired (e : TupleElt) : Bool :=
  e.type ≠ "TSRestType" ∧ e.type ≠ "TSOptionalType" ∧
    ¬(e.type = "TSNamedTupleMember" ∧ e.optional)

/-- The `checkType` of the element: the rest element's argument stands
in for the element itself (src 1777-1781). -/
def eltCheckType (e : TupleElt) : String :=
  if e.type = "TSRestType" then e.argType else e.type

/-- The position the mixed-labels diagnostic is raised at: for a rest
element, its argument's `start` (src 1779, 1786). -/
def eltCheckStart (e : TupleElt) : Nat :=
  if e.type = "TSRestType" then e.argStart else e.start

/-- Whether the element is labeled for the mixed-labels check
(src 1783). -/
def eltIsLabeled (e : TupleElt) : Bool :=
  eltCheckType e = "TSNamedTupleMember"

/-- The `forEach` validation loop of `tsParseTupleType` (src 1758-1788),
with `seenOptionalElement`, `labeledElements` and the collected raises
threaded explicitly. -/
def tsValidateTupleLoop (seen : Bool) (lab : Option Bool)
    (diags : List Diag) : List TupleElt → List Diag
  | [] => diags
  | e :: rest =>
    let d1 :=
      if seen ∧ eltRequired e then
        diags ++ [.optionalTypeBeforeRequired e.start]
      else diags
    let seen1 := seen || eltOptionalish e
    let lab1 := match lab with
      | none => some (eltIsLabeled e)
      | some b => some b
    let d2 :=
      if lab1 = some (eltIsLabeled e) then d1
      else d1 ++ [.mixedLabeledAndUnlabeledElements (eltCheckStart e)]
    tsValidateTupleLoop seen1 lab1 d2 rest

/-- The element-list validation `tsParseTupleType` runs once the
bracketed list is parsed (src 1756-1788). -/
def tsParseTupleTypeValidation (elts : List TupleElt) : List Diag :=
  tsValidateTupleLoop false none [] elts

theorem tsValidateTupleLoop_eq_append (l : List TupleElt) (seen : Bool)
    (lab : Option Bool) (diags : List Diag) :
    tsValidateTupleLoop seen lab diags l =
      diags ++ tsValidateTupleLoop seen lab [] l := by
  induction l generalizing seen lab diags with
  | nil => simp [tsValidateTupleLoop]
  | cons e rest ih =>
    simp only [tsValidateTupleLoop]
    conv_lhs => rw [ih]
    conv_rhs => rw [ih]
    split <;> split <;> simp

theorem mem_tsValidateTupleLoop_of_mem (l : List TupleElt) (seen : Bool)
    (lab : Option Bool) (diags : List Diag) (x : Diag) (hx : x ∈ diags) :
    x ∈ tsValidateTupleLoop seen lab diags l := by
  rw [tsValidateTupleLoop_eq_append]
  exact List.mem_append_left _ hx

theorem mem_tsValidateTupleLoop_required (xs : List TupleElt)
    (e : TupleElt) (ys : List TupleElt) (lab : Option Bool)
    (diags : List Diag) (hreq : eltRequired e = true) :
    Diag.optionalTypeBeforeRequired e.start ∈
      tsValidateTupleLoop true lab diags (xs ++ e :: ys) := by
  induction xs generalizing lab diags with
  | nil =>
    simp only [List.nil_append, tsValidateTupleLoop]
    apply mem_tsValidateTupleLoop_of_mem
    split <;> simp [hreq]
  | cons x xs ih =>
    simp only [List.cons_append, tsValidateTupleLoop, Bool.true_or]
    exact ih _ _

theorem mem_tsValidateTupleLoop_mixed (l : List TupleElt) (e : TupleElt)
    (seen : Bool) (b : Bool) (diags : List Diag) (he : e ∈ l)
    (hlab : eltIsLabeled e ≠ b) :
    Diag.mixedLabeledAndUnlabeledElements (eltCheckStart e) ∈
      tsValidateTupleLoop seen (some b) diags l := by
  induction l generalizing seen diags with
  | nil => cases he
  | cons x xs ih =>
    rcases List.mem_cons.mp he with rfl | hmem
    · simp only [tsValidateTupleLoop]
      have hb : ¬(some b = some (eltIsLabeled e)) := by
        simp only [Option.some.injEq]
        exact fun h => hlab h.symm
      rw [if_neg hb]
      apply mem_tsValidateTupleLoop_of_mem
      split <;> simp
    · simp only [tsValidateTupleLoop]
      exact ih _ _ hmem

theorem mem_tsValidateTupleLoop_required_any (xs : List TupleElt)
    (e : TupleElt) (ys : List TupleElt) (hreq : eltRequired e = true) :
    ∀ (lab : Option Bool) (diags : List Diag),
      xs.any eltOptionalish = true →
      Diag.optionalTypeBeforeRequired e.start ∈
        tsValidateTupleLoop false lab diags (xs ++ e :: ys) := by
  induction xs with
  | nil =>
    intro lab diags hany
    simp at hany
  | cons x0 xs0 ih =>
    intro lab diags hany
    by_cases hopt : eltOptionalish x0 = true
    · simp only [List.cons_append, tsValidateTupleLoop, hopt,
        Bool.or_true]
      exact mem_tsValidateTupleLoop_required xs0 e ys _ _ hreq
    · simp only [List.cons_append, tsValidateTupleLoop,
        eq_false_of_ne_true hopt, Bool.or_false]
      apply ih
      simpa [hopt] using hany

/-- C7: tuple-element validation: (i) every element that is neither a
rest element nor an optional element (nor an optional named member) and
that occurs after an earlier optional element raises the
optional-before-required error at that element's start; (ii) every
element whose labeledness (judged on the rest element's argument)
differs from the first element's raises the mixed-labeled-and-unlabeled
error at its check position; (iii) `[string, number?]` — a required
keyword type followed by one optional element — validates without any
diagnostic. -/
theorem ts_tuple_validation (xs ys : List TupleElt) (e x : TupleElt)
    (l : List TupleElt) :
    (xs.any eltOptionalish = true → eltRequired e = true →
      Diag.optionalTypeBeforeRequired e.start ∈
        tsParseTupleTypeValidation (xs ++ e :: ys)) ∧
    (e ∈ l → eltIsLabeled e ≠ eltIsLabeled x →
      Diag.mixedLabeledAndUnlabeledElements (eltCheckStart e) ∈
        tsParseTupleTypeValidation (x :: l)) ∧
    tsParseTupleTypeValidation
        [⟨"TSStringKeyword", false, 1, "", 0⟩,
         ⟨"TSOptionalType", false, 9, "", 0⟩] = [] := by
  refine ⟨?_, ?_, by decide⟩
  · intro hany hreq
    unfold tsParseTupleTypeValidation
    exact mem_tsValidateTupleLoop_required_any xs e ys hreq none [] hany
  · intro hmem hlab
    unfold tsParseTupleTypeValidation
    simp only [tsValidateTupleLoop]
    exact mem_tsValidateTupleLoop_mixed l e _ _ _ hmem hlab

/-- C7 witness: the validation theorem applied to `[number?, number]`
(an optional element followed by a bare required keyword type): the
optional-before-required diagnostic is raised at the required
element's start. -/
theorem ts_tuple_validation_witness :
    ([(⟨"TSOptionalType", false, 1, "", 0⟩ : TupleElt)].any
        eltOptionalish = true) ∧
      Diag.optionalTypeBeforeRequired 11 ∈
        tsParseTupleTypeValidation
          [⟨"TSOptionalType", false, 1, "", 0⟩,
           ⟨"TSNumberKeyword", false, 11, "", 0⟩] :=
  ⟨by decide,
   (ts_tuple_validation [⟨"TSOptionalType", false, 1, "", 0⟩] []
     ⟨"TSNumberKeyword", false, 11, "", 0⟩ ⟨"", false, 0, "", 0⟩ []).1
     (by decide) (by decide)⟩

/-- Expression nodes for the postfix-`!` claim: a base expression (with
its start offset) or a `TSNonNullExpression` wrapper. -/
inductive ENode where
  | leaf (tag : String) (start : Nat)
  | nonNull (start : Nat) (expression : ENode)
deriving DecidableEq, Repr

/-- The node's type tag. -/
def ENode.typeTag : ENode → String
  | .leaf tag _ => tag
  | .nonNull _ _ => "TSNonNullExpression"

/-- The extension prefix of `parseSubscript` (src 4700-4722): when there
is no preceding line break, the current token's value is `!`, and the
current token type is `tt.prefix`, the `!` is consumed
(`this.next()`, with `exprAllowed` cleared) and the base expression is
wrapped in a `TSNonNullExpression` started at the subscript chain's
`startPos`; otherwise the branch falls through (`none`) to the rest of
`parseSubscript`. -/
def parseSubscriptBang (hasPrecedingLineBreak : Bool)
    (value : Option String) (tokType : TokKind) (startPos : Nat)
    (base : ENode) : Option ENode :=
  if ¬hasPrecedingLineBreak ∧ value = some "!" ∧ tokType = .prefixOp then
    some (.nonNull startPos base)
  else none

/-- C9 support: acorn node record for the `finishNode` claim. -/
structure ANode where
  type : String
  start : Nat
  endPos : Nat
  locStart : Loc
  locEnd : Loc
deriving DecidableEq, Repr

/-- Modelled from the spec: the Base Grammar Engine's `finishNode` fixes
the span automatically at finish time (spec section 6): it stamps the
type tag and sets the node's end offset/location from the last consumed
token. -/
def baseFinishNode (lastTokEnd : Nat) (lastTokEndLoc : Loc)
    (node : ANode) (type : String) : ANode :=
  { node with type := type, endPos := lastTokEnd, locEnd := lastTokEndLoc }

/-- The overridden `finishNode` (src 313-319): a node whose `type` is
already non-empty and whose `end` is nonzero is returned unchanged;
otherwise the base engine finishes it. -/
def finishNode (lastTokEnd : Nat) (lastTokEndLoc : Loc) (node : ANode)
    (type : String) : ANode :=
  if node.type ≠ "" ∧ node.endPos ≠ 0 then node
  else baseFinishNode lastTokEnd lastTokEndLoc node type

/-- `resetEndLocation` (src 398-405): the explicit span-adjustment
operation — overwrites `end` and `loc.end` from the given position. -/
def resetEndLocation (node : ANode) (endLoc : Loc) : ANode :=
  { node with endPos := endLoc.index, locEnd := endLoc }

/-- Diagnostic routing results for C10: the silent consume of the comma
(`this.next(); return`), a hard error (`super.raise`), or a recoverable
report (`super.raiseRecoverable`). -/
inductive RaiseResult where
  | consumedComma
  | fatal (pos : Nat) (message : String)
  | recoverable (pos : Nat) (message : String)
deriving DecidableEq, Repr

/-- `raiseCommonCheck` (src 5271-5288): the message `Comma is not
permitted after the rest element`, in an ambient context with the
current token a comma and the next non-whitespace character `)` (41), is
swallowed by consuming the comma; with any of those conditions false it
goes to the base engine's hard `raise`; every other message goes to
`raiseRecoverable` or `raise` according to the `recoverable` flag. -/
def raiseCommonCheck (isAmbientContext : Bool) (curTokIsComma : Bool)
    (lookaheadCharCode : Nat) (pos : Nat) (message : String)
    (recoverable : Bool) : RaiseResult :=
  if message = "Comma is not permitted after the rest element" then
    if isAmbientContext ∧ curTokIsComma ∧ lookaheadCharCode = 41 then
      .consumedComma
    else .fatal pos message
  else if recoverable then .recoverable pos message
  else .fatal pos message

/-- The overridden `raiseRecoverable` (src 5290-5292): always routes
through `raiseCommonCheck` with `recoverable = true`. -/
def parserRaiseRecoverable (isAmbientContext curTokIsComma : Bool)
    (lookaheadCharCode pos : Nat) (message : String) : RaiseResult :=
  raiseCommonCheck isAmbientContext curTokIsComma lookaheadCharCode pos
    message true

/-- The overridden `raise` (src 5294-5296): also routes through
`raiseCommonCheck` with `recoverable = true`. -/
def parserRaise (isAmbientContext curTokIsComma : Bool)
    (lookaheadCharCode pos : Nat) (message : String) : RaiseResult :=
  raiseCommonCheck isAmbientContext curTokIsComma lookaheadCharCode pos
    message true

/-- C8: `parseSubscript` consumes a lone `!` — value `!` on a
`tt.prefix` token — as a postfix non-null assertion exactly when no line
break precedes it: the result wraps the preceding expression in a
`TSNonNullExpression` spanning from the subscript chain's start; with a
preceding line break (or any other token) the branch yields nothing and
the `!` is left for the following productions. -/
theorem ts_postfix_nonnull (hasLineBreak : Bool) (value : Option String)
    (tokType : TokKind) (startPos : Nat) (base : ENode) :
    (parseSubscriptBang hasLineBreak value tokType startPos base =
        some (.nonNull startPos base) ↔
      hasLineBreak = false ∧ value = some "!" ∧ tokType = .prefixOp) ∧
    (parseSubscriptBang hasLineBreak value tokType startPos base =
        none ↔
      ¬(hasLineBreak = false ∧ value = some "!" ∧
        tokType = .prefixOp)) ∧
    (ENode.nonNull startPos base).typeTag = "TSNonNullExpression" := by
  refine ⟨?_, ?_, rfl⟩ <;> unfold parseSubscriptBang <;> split <;>
    simp_all

/-- C9: finishing is guarded: a node whose type tag is non-empty and
whose end offset is nonzero is returned by `finishNode` unchanged — no
field is overwritten — so finishing an already-finished node is the
identity and a finished span changes only through the explicit reset
operations such as `resetEndLocation`; moreover finishing twice with a
non-empty tag and a nonzero token end equals finishing once. -/
theorem ts_finishNode_fixed_once (lastTokEnd : Nat) (lastTokEndLoc : Loc)
    (node node2 : ANode) (type type2 : String) (htype : node.type ≠ "")
    (hend : node.endPos ≠ 0) (htype2 : type2 ≠ "")
    (hlt : lastTokEnd ≠ 0) :
    finishNode lastTokEnd lastTokEndLoc node type = node ∧
      finishNode lastTokEnd lastTokEndLoc
        (finishNode lastTokEnd lastTokEndLoc node2 type2) type =
        finishNode lastTokEnd lastTokEndLoc node2 type2 ∧
      (resetEndLocation node lastTokEndLoc).endPos = lastTokEndLoc.index := by
  refine ⟨?_, ?_, rfl⟩
  · rw [finishNode, if_pos ⟨htype, hend⟩]
  · by_cases hg : node2.type ≠ "" ∧ node2.endPos ≠ 0
    · have h1 : finishNode lastTokEnd lastTokEndLoc node2 type2 = node2 := by
        rw [finishNode, if_pos hg]
      rw [h1, finishNode, if_pos hg]
    · have h1 : finishNode lastTokEnd lastTokEndLoc node2 type2 =
          baseFinishNode lastTokEnd lastTokEndLoc node2 type2 := by
        rw [finishNode, if_neg hg]
      rw [h1, finishNode, if_pos ⟨htype2, hlt⟩]

/-- C9 witness: the guard theorem applied to a concrete finished node. -/
theorem ts_finishNode_fixed_once_witness :
    (("Identifier" : String) ≠ "") ∧
      finishNode 9 ⟨1, 9, 9⟩
        { type := "Identifier", start := 2, endPos := 5,
          locStart := ⟨1, 2, 2⟩, locEnd := ⟨1, 5, 5⟩ } "CallExpression" =
        { type := "Identifier", start := 2, endPos := 5,
          locStart := ⟨1, 2, 2⟩, locEnd := ⟨1, 5, 5⟩ } :=
  ⟨by decide,
   (ts_finishNode_fixed_once 9 ⟨1, 9, 9⟩
     { type := "Identifier", start := 2, endPos := 5,
       locStart := ⟨1, 2, 2⟩, locEnd := ⟨1, 5, 5⟩ }
     { type := "Identifier", start := 2, endPos := 5,
       locStart := ⟨1, 2, 2⟩, locEnd := ⟨1, 5, 5⟩ } "CallExpression"
     "Identifier" (by decide) (by decide) (by decide) (by decide)).1⟩

/-- C10: every diagnostic raised through the overridden `raise` /
`raiseRecoverable` passes through `raiseCommonCheck`; the message
`Comma is not permitted after the rest element` is silently swallowed
(comma consumed, nothing reported) exactly when the parser is in an
ambient context, the current token is a comma, and the next
non-whitespace character is `)`; with any of those three conditions
false that message becomes a hard error; every other message is
reported through the recoverable path — by both `raise` and
`raiseRecoverable`. -/
theorem ts_diag_routing (amb comma : Bool) (la pos : Nat)
    (message : String) :
    (parserRaise amb comma la pos message =
        raiseCommonCheck amb comma la pos message true ∧
      parserRaiseRecoverable amb comma la pos message =
        raiseCommonCheck amb comma la pos message true) ∧
    (message = "Comma is not permitted after the rest element" →
      (amb = true ∧ comma = true ∧ la = 41 →
        parserRaise amb comma la pos message = .consumedComma ∧
        parserRaiseRecoverable amb comma la pos message =
          .consumedComma) ∧
      (¬(amb = true ∧ comma = true ∧ la = 41) →
        parserRaise amb comma la pos message = .fatal pos message ∧
        parserRaiseRecoverable amb comma la pos message =
          .fatal pos message)) ∧
    (message ≠ "Comma is not permitted after the rest element" →
      parserRaise amb comma la pos message =
          .recoverable pos message ∧
        parserRaiseRecoverable amb comma la pos message =
          .recoverable pos message) := by
  refine ⟨⟨rfl, rfl⟩, ?_, ?_⟩
  · intro hmsg
    constructor
    · intro hc
      simp [parserRaise, parserRaiseRecoverable, raiseCommonCheck, hmsg,
        hc.1, hc.2.1, hc.2.2]
    · intro hc
      simp [parserRaise, parserRaiseRecoverable, raiseCommonCheck, hmsg,
        hc]
  · intro hmsg
    simp [parserRaise, parserRaiseRecoverable, raiseCommonCheck, hmsg]

/-- C10 witness: the routing theorem applied to the rest-element-comma
message in an ambient context at a comma followed by `)` — swallowed —
and to an ordinary message — recoverable. -/
theorem ts_diag_routing_witness :
    (("Comma is not permitted after the rest element" : String) =
        "Comma is not permitted after the rest element") ∧
      parserRaise true true 41 10
          "Comma is not permitted after the rest element" =
        .consumedComma :=
  ⟨rfl,
   ((ts_diag_routing true true 41 10
       "Comma is not permitted after the rest element").2.1 rfl).1
     (by decide) |>.1⟩

end AcornTs
